import Mathlib

/-!
Shallow embedding of the higress ai-quota gateway plugin (Go sources:
plugins/wasm-go/extensions/ai-quota and plugins/wasm-go/pkg/wrapper).

Modelling conventions:
- Go `int` and `time.Duration` (int64 nanoseconds) are idealized as `Int`
  (overflow is out of scope for the verified properties).
- Go `float64` quantities in the retry-delay computation are idealized as
  exact rationals; float-to-integer conversion truncates toward zero, which
  is modelled by `truncQ`.
- The callback-driven Redis client is modelled by a deterministic
  `StoreModel` supplying the reply for each issued command; the commands a
  request issues are recorded in order as a list of events `Ev`.
- tidwall resp values are modelled by the tagged sum `RespValue`.
- JSON body and JWT parsing are host-boundary concerns; the extracted model
  name, user id and header values are parameters of the handlers.
- Go maps are modelled by association lists; Go nil slices by `Option`
  (`none` is a nil slice, which marshals to JSON null).
- Percent-unescaping in query parsing is elided (identity on inputs without
  escape sequences), which is irrelevant to the properties proved here.
-/

namespace AiQuota

/-- Tagged Redis reply value mirroring the tidwall resp values the plugin
uses: classified errors, null, bulk strings and integers. -/
inductive RespValue where
  | err (msg : String)
  | null
  | bulk (s : String)
  | int (n : Int)
  deriving DecidableEq, Repr

/-- digitsAux accumulates the decimal value of a digit run, failing on the
first non-digit, as strconv.Atoi does after the sign. -/
def digitsAux : List Char → Nat → Option Nat
  | [], acc => some acc
  | c :: cs, acc =>
    if c.isDigit then digitsAux cs (acc * 10 + (c.toNat - 48)) else none

/-- digitsVal? is the value of a nonempty all-digit run, none otherwise. -/
def digitsVal? : List Char → Option Nat
  | [] => none
  | l => digitsAux l 0

/-- atoi? models Go strconv.Atoi: an optional sign followed by at least one
decimal digit; anything else is a parse error (none). -/
def atoi? (s : String) : Option Int :=
  match s.toList with
  | '+' :: rest => (digitsVal? rest).map (fun n => (n : Int))
  | '-' :: rest => (digitsVal? rest).map (fun n => -(n : Int))
  | l => (digitsVal? l).map (fun n => (n : Int))

/-- string models tidwall resp Value.String(): the text of the value, empty
for null. -/
def RespValue.string : RespValue → String
  | .err m => m
  | .null => ""
  | .bulk s => s
  | .int n => toString n

/-- isNull models resp Value.IsNull(). -/
def RespValue.isNull : RespValue → Bool
  | .null => true
  | _ => false

/-- isError models wrapper.IsRedisErrorResponse (value type is Error). -/
def RespValue.isError : RespValue → Bool
  | .err _ => true
  | _ => false

/-- integer models resp Value.Integer(): the integer itself for integer
replies, the parsed text otherwise with 0 on failure. -/
def RespValue.integer : RespValue → Int
  | .int n => n
  | v => (atoi? v.string).getD 0

/-- Outcome of one handled request: resume upstream, or a terminal JSON
response with an HTTP status, a domain code and a message. -/
inductive Outcome where
  | resume
  | response (status : Nat) (code : String) (msg : String)
  deriving DecidableEq, Repr

/-- Ev records one observable side effect issued by a handler, in order:
Redis commands and local star-cache mutations. -/
inductive Ev where
  | getK (key : String)
  | setK (key value : String)
  | incrbyK (key : String) (delta : Int)
  | decrbyK (key : String) (delta : Int)
  | cacheDel (userId : String)
  | cacheIns (userId : String)
  deriving DecidableEq, Repr

/-- isStoreWrite marks the events that mutate the remote store. -/
def Ev.isStoreWrite : Ev → Bool
  | .setK _ _ => true
  | .incrbyK _ _ => true
  | .decrbyK _ _ => true
  | _ => false

/-- ProviderCfg mirrors the plugin ProviderConfig: provider type (field
`Type` in Go) and the model mapping. -/
structure ProviderCfg where
  Typ : String
  ModelMapping : List (String × String)

/-- QuotaCfg mirrors the fields of the Go QuotaConfig used by the verified
code paths; the Pfx fields are the Redis key-prefix fields of the source. -/
structure QuotaCfg where
  RedisKeyPfx : String
  RedisUsedPfx : String
  RedisStarPfx : String
  CheckGithubStar : Bool
  DeductHeader : String
  DeductHeaderValue : String
  ModelQuotaWeights : List (String × Int)
  Provider : ProviderCfg

/-- StoreModel supplies the deterministic Redis reply for each command kind
the verified handlers issue. -/
structure StoreModel where
  get : String → RespValue
  incrby : String → Int → RespValue
  decrby : String → Int → RespValue
  setResp : String → String → RespValue

/-- Cache is the process-local star cache, a Go map modelled as an
association list (latest binding first). -/
abbrev Cache := List (String × Bool)

/-- lookupCache is Go map access starCache[u]. -/
def lookupCache (c : Cache) (u : String) : Option Bool :=
  (c.find? (fun p => p.1 == u)).map (fun p => p.2)

/-- checkStarCache mirrors QuotaConfig.checkStarCache: a hit is reported
only when the entry exists and is true. -/
def checkStarCache (c : Cache) (u : String) : Bool × Bool :=
  match lookupCache c u with
  | some true => (true, true)
  | _ => (false, false)

/-- eraseCache is Go delete(starCache, u). -/
def eraseCache (c : Cache) (u : String) : Cache :=
  c.filter (fun p => !(p.1 == u))

/-- setStarCache mirrors QuotaConfig.setStarCache: insert only a true
status, delete the entry otherwise. -/
def setStarCache (c : Cache) (u : String) (hasStar : Bool) : Cache :=
  if hasStar then (u, hasStar) :: eraseCache c u else eraseCache c u

/-- deleteStarCache mirrors QuotaConfig.deleteStarCache. -/
def deleteStarCache (c : Cache) (u : String) : Cache :=
  eraseCache c u

/-- weightOf is the model weight lookup in handleCompletionQuota via
processQuotaLogic: absent models default to 0. -/
def weightOf (cfg : QuotaCfg) (modelName : String) : Int :=
  ((cfg.ModelQuotaWeights.find? (fun p => p.1 == modelName)).map (fun p => p.2)).getD 0

/-- shouldDeductOf is the computation of shouldDeduct in doQuotaCheck: the
deduct header is present and equals the configured value. -/
def shouldDeductOf (cfg : QuotaCfg) (deductHdr : Option String) : Bool :=
  match deductHdr with
  | some v => v == cfg.DeductHeaderValue
  | none => false

/-- handleQuotaDeductionResponse mirrors the Go function of the same name:
validate the INCRBY reply and resume, or emit a 500. -/
def handleQuotaDeductionResponse (incrResponse : RespValue) (userId : String)
    (quotaWeight : Int) (modelName : String) (remainingQuota : Int) : Outcome :=
  if incrResponse.isError then
    .response 500 "quota-check.deduction_failed"
      ("Quota deduction failed: Redis error: " ++ incrResponse.string)
  else
    let newUsedQuota := incrResponse.integer
    if newUsedQuota < quotaWeight then
      .response 500 "quota-check.deduction_inconsistent"
        "Quota deduction resulted in inconsistent state"
    else
      .resume

/-- quotaDecision is the tail of handleUsedQuotaResponseWithRetry after the
used value has been established: compare remaining quota with the weight,
then INCRBY or reject. -/
def quotaDecision (store : StoreModel) (cfg : QuotaCfg) (userId : String)
    (quotaWeight : Int) (modelName : String) (totalQuota usedQuota : Int) :
    Outcome × List Ev :=
  let remainingQuota := totalQuota - usedQuota
  if remainingQuota ≥ quotaWeight then
    let usedKey := cfg.RedisUsedPfx ++ userId
    let incrResponse := store.incrby usedKey quotaWeight
    (handleQuotaDeductionResponse incrResponse userId quotaWeight modelName remainingQuota,
      [Ev.incrbyK usedKey quotaWeight])
  else
    (.response 403 "quota-check.insufficient_quota"
      ("Insufficient quota. Required: " ++ toString quotaWeight ++
        ", Available: " ++ toString remainingQuota), [])

/-- handleUsedQuotaResponseWithRetry mirrors the Go function: classify the
used-quota reply (error, malformed, negative, absent) and decide. -/
def handleUsedQuotaResponseWithRetry (store : StoreModel) (cfg : QuotaCfg)
    (usedResponse : RespValue) (userId : String) (quotaWeight : Int)
    (modelName : String) (totalQuota : Int) : Outcome × List Ev :=
  if usedResponse.isError then
    (.response 403 "quota-check.used_quota_error"
      ("Failed to retrieve used quota: Redis error: " ++ usedResponse.string), [])
  else
    let usedQuotaStr := usedResponse.string
    if usedQuotaStr = "" then
      quotaDecision store cfg userId quotaWeight modelName totalQuota 0
    else
      match atoi? usedQuotaStr with
      | none =>
        (.response 500 "quota-check.invalid_used_quota" "Invalid used quota format", [])
      | some usedQuota =>
        if usedQuota < 0 then
          (.response 500 "quota-check.invalid_used_quota" "Invalid used quota value", [])
        else
          quotaDecision store cfg userId quotaWeight modelName totalQuota usedQuota

/-- handleTotalQuotaResponseWithRetry mirrors the Go function: classify the
total-quota reply, defaulting an absent value to 0, then chain the
used-quota read. -/
def handleTotalQuotaResponseWithRetry (store : StoreModel) (cfg : QuotaCfg)
    (usedKey : String) (totalResponse : RespValue) (userId : String)
    (quotaWeight : Int) (modelName : String) : Outcome × List Ev :=
  if totalResponse.isError then
    (.response 403 "quota-check.total_quota_error"
      ("Failed to retrieve total quota: Redis error: " ++ totalResponse.string), [])
  else
    let totalQuotaStr := totalResponse.string
    let cont := fun (totalQuota : Int) =>
      let usedResponse := store.get usedKey
      let r := handleUsedQuotaResponseWithRetry store cfg usedResponse userId
        quotaWeight modelName totalQuota
      (r.1, Ev.getK usedKey :: r.2)
    if totalQuotaStr = "" then
      cont 0
    else
      match atoi? totalQuotaStr with
      | none =>
        (.response 500 "quota-check.invalid_total_quota" "Invalid total quota format", [])
      | some totalQuota =>
        if totalQuota < 0 then
          (.response 500 "quota-check.invalid_total_quota" "Invalid total quota value", [])
        else
          cont totalQuota

/-- doQuotaCheck mirrors the Go function. Note that the source computes
shouldDeduct and then issues the identical GET chain in both branches of
the if; the translation keeps the duplicated branches. -/
def doQuotaCheck (store : StoreModel) (cfg : QuotaCfg) (userId : String)
    (quotaWeight : Int) (modelName : String) (deductHdr : Option String) :
    Outcome × List Ev :=
  let totalKey := cfg.RedisKeyPfx ++ userId
  let usedKey := cfg.RedisUsedPfx ++ userId
  let shouldDeduct := shouldDeductOf cfg deductHdr
  if shouldDeduct then
    let totalResponse := store.get totalKey
    let r := handleTotalQuotaResponseWithRetry store cfg usedKey totalResponse
      userId quotaWeight modelName
    (r.1, Ev.getK totalKey :: r.2)
  else
    let totalResponse := store.get totalKey
    let r := handleTotalQuotaResponseWithRetry store cfg usedKey totalResponse
      userId quotaWeight modelName
    (r.1, Ev.getK totalKey :: r.2)

/-- processQuotaLogic mirrors the Go function: look up the model weight and
either resume immediately on weight 0 or run the quota check. -/
def processQuotaLogic (store : StoreModel) (cfg : QuotaCfg)
    (userId modelName : String) (deductHdr : Option String) : Outcome × List Ev :=
  let quotaWeight := weightOf cfg modelName
  if quotaWeight = 0 then
    (.resume, [])
  else
    doQuotaCheck store cfg userId quotaWeight modelName deductHdr

/-- starRequiredResponse is the 403 emitted when the GitHub-star gate
rejects a user. -/
def starRequiredResponse : Outcome :=
  .response 403 "ai-gateway.star_required"
    "Please star the project first: https://github.com/zgsm-ai/zgsm"

/-- handleCompletionQuota mirrors the Go function: the optional star gate
(cache, then Redis with fail-open on store error) followed by the quota
logic. -/
def handleCompletionQuota (store : StoreModel) (cfg : QuotaCfg) (cache : Cache)
    (userId modelName : String) (deductHdr : Option String) :
    Outcome × List Ev × Cache :=
  if cfg.CheckGithubStar then
    match checkStarCache cache userId with
    | (true, hasStar) =>
      if hasStar then
        let r := processQuotaLogic store cfg userId modelName deductHdr
        (r.1, r.2, cache)
      else
        (starRequiredResponse, [], cache)
    | (false, _) =>
      let starKey := cfg.RedisStarPfx ++ userId
      let starResponse := store.get starKey
      if starResponse.isError then
        let r := processQuotaLogic store cfg userId modelName deductHdr
        (r.1, Ev.getK starKey :: r.2, cache)
      else
        let hasStar := !starResponse.isNull && starResponse.string == "true"
        if hasStar then
          let cache2 := setStarCache cache userId hasStar
          let r := processQuotaLogic store cfg userId modelName deductHdr
          (r.1, Ev.getK starKey :: Ev.cacheIns userId :: r.2, cache2)
        else
          (starRequiredResponse, [Ev.getK starKey], cache)
  else
    let r := processQuotaLogic store cfg userId modelName deductHdr
    (r.1, r.2, cache)

/-- ChatMode mirrors the Go ChatMode constants. -/
inductive ChatMode where
  | completion
  | admin
  | noneMode
  deriving DecidableEq, Repr

/-- AdminMode mirrors the Go AdminMode constants. -/
inductive AdminMode where
  | refresh
  | query
  | delta
  | usedQuery
  | usedRefresh
  | usedDelta
  | starQuery
  | starSet
  | noneMode
  deriving DecidableEq, Repr

/-- hasSuffixL models Go strings.HasSuffix on char lists. -/
def hasSuffixL (s pat : List Char) : Bool :=
  decide (pat <:+ s)

/-- getOperationMode mirrors the Go function: classify the request path by
suffix against the admin path, longer suffixes first. -/
def getOperationMode (path adminPath : List Char) : ChatMode × AdminMode :=
  let fullAdminPath := "/v1/chat/completions".toList ++ adminPath
  if hasSuffixL path (fullAdminPath ++ "/refresh".toList) then (.admin, .refresh)
  else if hasSuffixL path (fullAdminPath ++ "/delta".toList) then (.admin, .delta)
  else if hasSuffixL path (fullAdminPath ++ "/used/refresh".toList) then (.admin, .usedRefresh)
  else if hasSuffixL path (fullAdminPath ++ "/used/delta".toList) then (.admin, .usedDelta)
  else if hasSuffixL path (fullAdminPath ++ "/used".toList) then (.admin, .usedQuery)
  else if hasSuffixL path (fullAdminPath ++ "/star/set".toList) then (.admin, .starSet)
  else if hasSuffixL path (fullAdminPath ++ "/star".toList) then (.admin, .starQuery)
  else if hasSuffixL path fullAdminPath then (.admin, .query)
  else if hasSuffixL path "/v1/chat/completions".toList then (.completion, .noneMode)
  else (.noneMode, .noneMode)

/-- RedisErrorType mirrors the Go enumeration of store error classes. -/
inductive RedisErrorType where
  | connection
  | timeout
  | protocol
  | auth
  | command
  | network
  | unknown
  deriving DecidableEq, Repr

/-- RedisError mirrors the Go RedisError record (field Type is typ here). -/
structure RedisError where
  typ : RedisErrorType
  operation : String
  key : String
  message : String
  retryable : Bool
  temporary : Bool
  deriving DecidableEq, Repr

/-- containsStr models Go strings-contains as used by containsAny: the
pattern occurs as a contiguous substring. -/
def containsStr (s sub : String) : Bool :=
  decide (sub.toList <:+: s.toList)

/-- containsAny mirrors the Go helper: some pattern of the list occurs in
the text. -/
def containsAny (s : String) (subs : List String) : Bool :=
  subs.any (fun sub => containsStr s sub)

/-- classifyRedisError mirrors the Go function: status-code classes first,
then keyword classes on the error text, with retryable and temporary
defaulting to true. -/
def classifyRedisError (status : Int) (err : Option String)
    (operation key : String) : RedisError :=
  let base : RedisError :=
    { typ := .unknown, operation := operation, key := key, message := "",
      retryable := true, temporary := true }
  if status ≠ 0 then
    if status = 1 then
      { base with
        typ := .connection
        message := "Connection refused - Redis server may be down" }
    else if status = 2 then
      { base with typ := .timeout, message := "Operation timed out" }
    else if status = 3 then
      { base with
        typ := .auth
        message := "Authentication failed"
        retryable := false
        temporary := false }
    else
      { base with
        typ := .network
        message := "Network error (status: " ++ toString status ++ ")" }
  else
    match err with
    | some errMsg =>
      if containsAny errMsg ["connection", "connect", "dial"] then
        { base with typ := .connection, message := "Connection error: " ++ errMsg }
      else if containsAny errMsg ["timeout", "deadline"] then
        { base with typ := .timeout, message := "Timeout error: " ++ errMsg }
      else if containsAny errMsg ["auth", "authentication", "password"] then
        { base with
          typ := .auth
          message := "Authentication error: " ++ errMsg
          retryable := false
          temporary := false }
      else if containsAny errMsg ["protocol", "parse", "invalid"] then
        { base with
          typ := .protocol
          message := "Protocol error: " ++ errMsg
          retryable := false }
      else if containsAny errMsg ["network", "io", "broken pipe"] then
        { base with typ := .network, message := "Network error: " ++ errMsg }
      else
        { base with typ := .unknown, message := "Unknown error: " ++ errMsg }
    | none =>
      { base with typ := .unknown, message := "Unknown error occurred" }

/-- RetryConfig mirrors the Go record; delays are int64 nanoseconds and the
backoff factor is a float64 idealized as a rational. -/
structure RetryConfig where
  MaxRetries : Nat
  InitialDelay : Int
  MaxDelay : Int
  BackoffFactor : ℚ
  EnableJitter : Bool
  deriving DecidableEq, Repr

/-- truncQ is the Go float-to-integer conversion: truncation toward zero. -/
def truncQ (q : ℚ) : Int :=
  if 0 ≤ q then ⌊q⌋ else ⌈q⌉

/-- backoffLoop is the exponential-backoff loop of calculateRetryDelay: one
multiplication per prior attempt, clamping to MaxDelay and stopping when
the clamp fires. -/
def backoffLoop (factor : ℚ) (maxDelay : Int) : Nat → Int → Int
  | 0, delay => delay
  | n + 1, delay =>
    let d := truncQ ((delay : ℚ) * factor)
    if d > maxDelay then maxDelay else backoffLoop factor maxDelay n d

/-- jitterFactor is the deterministic jitter of calculateRetryDelay:
0.5 + (attempt mod 5) * 0.1. -/
def jitterFactor (attempt : Nat) : ℚ :=
  1/2 + ((attempt % 5 : Nat) : ℚ) * (1/10)

/-- calculateRetryDelay mirrors the Go function: exponential backoff with
in-loop clamping, then optional deterministic jitter. -/
def calculateRetryDelay (config : RetryConfig) (attempt : Nat) : Int :=
  let delay := backoffLoop config.BackoffFactor config.MaxDelay attempt config.InitialDelay
  if config.EnableJitter then
    truncQ ((delay : ℚ) * jitterFactor attempt)
  else
    delay

/-- ModelInfo mirrors the Go struct used in the models response. -/
structure ModelInfo where
  Id : String
  Object : String
  Created : Int
  OwnedBy : String
  deriving DecidableEq, Repr

/-- ModelsResponse mirrors the Go struct; Data is an Option because a Go
nil slice marshals to JSON null while the code builds a non-nil slice. -/
structure ModelsResponse where
  Object : String
  Data : Option (List ModelInfo)
  deriving DecidableEq, Repr

/-- getOwnerByProvider mirrors the Go switch on the provider type. -/
def getOwnerByProvider (providerTyp : String) : String :=
  if providerTyp == "openai" then "openai"
  else if providerTyp == "azure" then "openai-internal"
  else if providerTyp == "qwen" then "alibaba"
  else if providerTyp == "moonshot" then "moonshot"
  else if providerTyp == "claude" then "anthropic"
  else if providerTyp == "gemini" then "google"
  else providerTyp

/-- keepModelEntry is the negation of the three skip conditions of
BuildModelsResponse: wildcard key, key with wildcard suffix, empty value. -/
def keepModelEntry (kv : String × String) : Bool :=
  !(kv.1 == "*") && !(hasSuffixL kv.1.toList "*".toList) && !(kv.2 == "")

/-- modelEntryOf is the fixed-shape record BuildModelsResponse emits for a
surviving mapping entry. -/
def modelEntryOf (cfg : QuotaCfg) (kv : String × String) : ModelInfo :=
  { Id := kv.1
    Object := "model"
    Created := 1686935002
    OwnedBy := getOwnerByProvider cfg.Provider.Typ }

/-- modelAppendStep is the body of the BuildModelsResponse loop: skip the
wildcard key, keys with a wildcard suffix, and empty-mapped keys, otherwise
append one fixed-shape record. -/
def modelAppendStep (cfg : QuotaCfg) (acc : List ModelInfo)
    (kv : String × String) : List ModelInfo :=
  if kv.1 == "*" then acc
  else if hasSuffixL kv.1.toList "*".toList then acc
  else if kv.2 == "" then acc
  else acc ++ [modelEntryOf cfg kv]

/-- BuildModelsResponse mirrors the Go method: iterate the model mapping,
skip wildcard and empty entries, and emit fixed-shape model records. -/
def BuildModelsResponse (cfg : QuotaCfg) : ModelsResponse :=
  let models : List ModelInfo := []
  if cfg.Provider.ModelMapping.length = 0 then
    { Object := "list", Data := some models }
  else
    let models := cfg.Provider.ModelMapping.foldl (modelAppendStep cfg) models
    { Object := "list", Data := some models }

/-- splitChar splits a char list at every occurrence of the separator,
keeping empty chunks; the accumulator holds the current chunk reversed. -/
def splitChar (sep : Char) : List Char → List Char → List (List Char)
  | [], acc => [acc.reverse]
  | c :: cs, acc =>
    if c = sep then acc.reverse :: splitChar sep cs [] else splitChar sep cs (c :: acc)

/-- cutEq cuts a chunk at its first equals sign, as strings.Cut does: the
key before it and the value after it, the value empty when absent. -/
def cutEq : List Char → List Char × List Char
  | [] => ([], [])
  | c :: cs => if c = '=' then ([], cs) else ((c :: (cutEq cs).1), (cutEq cs).2)

/-- parsePairs models url.ParseQuery as an ordered pair list: chunks are
split on the ampersand, each cut at its first equals sign; empty chunks are
skipped. Percent-unescaping is elided. -/
def parsePairs (s : String) : List (String × String) :=
  (splitChar '&' s.toList []).filterMap (fun chunk =>
    if chunk = [] then none
    else some (String.mk (cutEq chunk).1, String.mk (cutEq chunk).2))

/-- groupedValues is the url.Values view: all values of one key, in order
of appearance. -/
def groupedValues (ps : List (String × String)) (k : String) : List String :=
  (ps.filter (fun p => p.1 == k)).map (fun p => p.2)

/-- getParam is the values-map construction the admin handlers share: for
each key the first element of its url.Values list, the empty string when
the key is absent (Go zero value on map miss). -/
def getParam (body k : String) : String :=
  ((groupedValues (parsePairs body) k).head?).getD ""

/-- firstParam states the first-occurrence reading in spec words: the value
of the first pair of the parsed body carrying the key. -/
def firstParam (body k : String) : String :=
  (((parsePairs body).find? (fun p => p.1 == k)).map (fun p => p.2)).getD ""

/-- adminParams is the parameter view a handler builds from its body. -/
def adminParams (body : String) : String → String :=
  fun k => getParam body k

/-- invalidParamsDelta is the 400 of deltaQuota and deltaUsedQuota. -/
def invalidParamsDelta : Outcome :=
  .response 400 "ai-gateway.invalid_params"
    "Request denied by ai quota check. user_id can\x27t be empty and value must be integer."

/-- deltaQuota mirrors the Go handler given its parameter view: validate,
then INCRBY for a non-negative delta and DECRBY of the negation otherwise. -/
def deltaQuota (store : StoreModel) (cfg : QuotaCfg)
    (params : String → String) : Outcome × List Ev :=
  let userId := params "user_id"
  match atoi? (params "value") with
  | none => (invalidParamsDelta, [])
  | some value =>
    if userId = "" then (invalidParamsDelta, [])
    else if value ≥ 0 then
      let key := cfg.RedisKeyPfx ++ userId
      let r := store.incrby key value
      (if r.isError then
        Outcome.response 503 "ai-gateway.error" ("redis error:" ++ r.string)
      else
        Outcome.response 200 "ai-gateway.deltaquota" "delta quota successful",
        [Ev.incrbyK key value])
    else
      let key := cfg.RedisKeyPfx ++ userId
      let r := store.decrby key (0 - value)
      (if r.isError then
        Outcome.response 503 "ai-gateway.error" ("redis error:" ++ r.string)
      else
        Outcome.response 200 "ai-gateway.deltaquota" "delta quota successful",
        [Ev.decrbyK key (0 - value)])

/-- deltaQuotaOnBody applies deltaQuota to the values map built from the
form body, as the Go handler does. -/
def deltaQuotaOnBody (store : StoreModel) (cfg : QuotaCfg) (body : String) :
    Outcome × List Ev :=
  deltaQuota store cfg (adminParams body)

/-- queryQuota mirrors the Go handler given its parameter view: choose the
key by admin mode, consult the star cache for star queries, then read and
validate the stored value. -/
def queryQuota (store : StoreModel) (cfg : QuotaCfg) (cache : Cache)
    (params : String → String) (adminMode : AdminMode) :
    Outcome × List Ev × Cache :=
  let userId := params "user_id"
  if userId = "" then
    (.response 400 "ai-gateway.invalid_params"
      "Request denied by ai quota check. user_id can\x27t be empty.", [], cache)
  else if adminMode = .starQuery ∧ (checkStarCache cache userId).1 then
    (.response 200 "ai-gateway.querystar" "query star status successful (cached)",
      [], cache)
  else
    let redisKey :=
      if adminMode = .usedQuery then cfg.RedisUsedPfx ++ userId
      else if adminMode = .starQuery then cfg.RedisStarPfx ++ userId
      else cfg.RedisKeyPfx ++ userId
    let responseType :=
      if adminMode = .usedQuery then "used_quota"
      else if adminMode = .starQuery then "star_status"
      else "total_quota"
    let r := store.get redisKey
    if r.isError then
      (.response 503 "ai-gateway.redis_error"
        ("Redis error: Redis error: " ++ r.string), [Ev.getK redisKey], cache)
    else if adminMode = .starQuery then
      let starValue :=
        if !r.isNull ∧ (r.string = "true" ∨ r.string = "false") then r.string
        else "false"
      if starValue == "true" then
        (.response 200 "ai-gateway.querystar" "query star status successful",
          [Ev.getK redisKey, Ev.cacheIns userId], setStarCache cache userId true)
      else
        (.response 200 "ai-gateway.querystar" "query star status successful",
          [Ev.getK redisKey], cache)
    else
      if r.isNull ∨ r.string = "" then
        (.response 200 "ai-gateway.queryquota" "query quota successful",
          [Ev.getK redisKey], cache)
      else
        match atoi? r.string with
        | none =>
          (.response 500 "ai-gateway.invalid_quota_format"
            ("Invalid " ++ responseType ++ " format"), [Ev.getK redisKey], cache)
        | some q =>
          if q < 0 then
            (.response 500 "ai-gateway.invalid_quota_value"
              ("Invalid " ++ responseType ++ " value"), [Ev.getK redisKey], cache)
          else
            (.response 200 "ai-gateway.queryquota" "query quota successful",
              [Ev.getK redisKey], cache)

/-- queryQuotaOnQuery applies queryQuota to the values map built from the
query string, as the Go handler does. -/
def queryQuotaOnQuery (store : StoreModel) (cfg : QuotaCfg) (cache : Cache)
    (rawQuery : String) (adminMode : AdminMode) : Outcome × List Ev × Cache :=
  queryQuota store cfg cache (adminParams rawQuery) adminMode

/-- setStarStatus mirrors the Go handler given its parameter view:
validate, delete the local cache entry, then SET the star flag. -/
def setStarStatus (store : StoreModel) (cfg : QuotaCfg) (cache : Cache)
    (params : String → String) : Outcome × List Ev × Cache :=
  let userId := params "user_id"
  let starValue := params "star_value"
  if userId = "" ∨ starValue = "" then
    (.response 400 "ai-gateway.invalid_params"
      "Request denied by ai quota check. user_id and star_value can\x27t be empty.",
      [], cache)
  else if starValue ≠ "true" ∧ starValue ≠ "false" then
    (.response 400 "ai-gateway.invalid_params"
      "Request denied by ai quota check. star_value must be \x27true\x27 or \x27false\x27.",
      [], cache)
  else
    let redisKey := cfg.RedisStarPfx ++ userId
    let cache2 := deleteStarCache cache userId
    let r := store.setResp redisKey starValue
    let outcome :=
      if r.isError then
        Outcome.response 503 "ai-gateway.error" ("redis error:" ++ r.string)
      else
        Outcome.response 200 "ai-gateway.setstar" "set star status successful"
    (outcome, [Ev.cacheDel userId, Ev.setK redisKey starValue], cache2)

/-- setStarStatusOnBody applies setStarStatus to the values map built from
the form body, as the Go handler does. -/
def setStarStatusOnBody (store : StoreModel) (cfg : QuotaCfg) (cache : Cache)
    (body : String) : Outcome × List Ev × Cache :=
  setStarStatus store cfg cache (adminParams body)

/-- ReachableCache is the set of star-cache states reachable from the empty
cache through the two mutating operations of the plugin. -/
inductive ReachableCache : Cache → Prop where
  | nil : ReachableCache []
  | set (c : Cache) (u : String) (b : Bool) (h : ReachableCache c) :
      ReachableCache (setStarCache c u b)
  | del (c : Cache) (u : String) (h : ReachableCache c) :
      ReachableCache (deleteStarCache c u)

/-- cfgA is a concrete configuration with default key prefixes, the deduct
header of the documented examples, gating disabled and one weighted model. -/
def cfgA : QuotaCfg :=
  { RedisKeyPfx := "chat_quota:"
    RedisUsedPfx := "chat_quota_used:"
    RedisStarPfx := "chat_quota_star:"
    CheckGithubStar := false
    DeductHeader := "x-quota-identity"
    DeductHeaderValue := "user"
    ModelQuotaWeights := [("gpt-4", 2)]
    Provider := { Typ := "qwen", ModelMapping := [] } }

/-- storeA is a concrete store: total 10 and used 3 for user u1, INCRBY
replying with the incremented used counter. -/
def storeA : StoreModel :=
  { get := fun k =>
      if k = "chat_quota:u1" then .bulk "10"
      else if k = "chat_quota_used:u1" then .bulk "3"
      else .null
    incrby := fun _ d => .int (3 + d)
    decrby := fun _ _ => .int 0
    setResp := fun _ _ => .bulk "OK" }

/-- cfgStar is cfgA with the GitHub-star gate enabled and an empty weight
table. -/
def cfgStar : QuotaCfg :=
  { cfgA with CheckGithubStar := true, ModelQuotaWeights := [] }

/-- storeFalseStar is a store whose every GET replies the bulk string
false, so the star gate rejects. -/
def storeFalseStar : StoreModel :=
  { storeA with get := fun _ => .bulk "false" }

/-- C1. The spec says that when the deduct header does not match the
configured value (shouldDeduct false) the request is resumed with no write
to the used counter, the increment being issued only when shouldDeduct is
true. The code computes shouldDeduct and then runs the identical
check-and-increment chain in both branches, so a request without the
header still gets the INCRBY. This theorem evaluates the code at the
failing input: total 10, used 3, weight 2, deduct header absent. -/
theorem c1_deduct_header_ignored :
    shouldDeductOf cfgA none = false
    ∧ doQuotaCheck storeA cfgA "u1" 2 "gpt-4" none
        = (.resume, [.getK "chat_quota:u1", .getK "chat_quota_used:u1",
            .incrbyK "chat_quota_used:u1" 2])
    ∧ (doQuotaCheck storeA cfgA "u1" 2 "gpt-4" none).2.filter Ev.isStoreWrite
        = [.incrbyK "chat_quota_used:u1" 2] := by
  refine ⟨rfl, by decide, by decide⟩

/-- C7 counterexample: an error whose text matches the protocol keywords is
classified Protocol with retryable false but is still marked temporary,
contradicting the claim that Protocol errors are non-temporary. -/
theorem c7_protocol_still_temporary :
    (classifyRedisError 0 (some "protocol") "GET" "k").typ = RedisErrorType.protocol
    ∧ (classifyRedisError 0 (some "protocol") "GET" "k").retryable = false
    ∧ (classifyRedisError 0 (some "protocol") "GET" "k").temporary = true := by
  refine ⟨by decide, by decide, by decide⟩

/-- C7 as amended: transport status 1, 2, 3 map to Connection, Timeout,
Auth and any other nonzero status to Network; Auth errors are non-retryable
and non-temporary; Protocol errors are non-retryable but remain marked
temporary; errors of every other class are retryable and temporary. -/
theorem c7_error_classification :
    ∀ (status : Int) (err : Option String) (operation key : String),
      (status = 1 → (classifyRedisError status err operation key).typ = .connection)
      ∧ (status = 2 → (classifyRedisError status err operation key).typ = .timeout)
      ∧ (status = 3 → (classifyRedisError status err operation key).typ = .auth)
      ∧ (status ≠ 0 → status ≠ 1 → status ≠ 2 → status ≠ 3 →
          (classifyRedisError status err operation key).typ = .network)
      ∧ ((classifyRedisError status err operation key).typ = .auth →
          (classifyRedisError status err operation key).retryable = false
          ∧ (classifyRedisError status err operation key).temporary = false)
      ∧ ((classifyRedisError status err operation key).typ = .protocol →
          (classifyRedisError status err operation key).retryable = false
          ∧ (classifyRedisError status err operation key).temporary = true)
      ∧ ((classifyRedisError status err operation key).typ ≠ .auth →
          (classifyRedisError status err operation key).typ ≠ .protocol →
          (classifyRedisError status err operation key).retryable = true
          ∧ (classifyRedisError status err operation key).temporary = true) := by
  intro status err operation key
  rcases err with _ | errMsg <;>
    simp only [classifyRedisError] <;>
    split_ifs <;>
    simp_all

/-- Witness for c7_error_classification at status 3. -/
theorem c7_error_classification_w :
    (classifyRedisError 3 none "GET" "k").typ = .auth
    ∧ (classifyRedisError 3 none "GET" "k").retryable = false
    ∧ (classifyRedisError 3 none "GET" "k").temporary = false :=
  ⟨(c7_error_classification 3 none "GET" "k").2.2.1 rfl,
    ((c7_error_classification 3 none "GET" "k").2.2.2.2.1 (by decide)).1,
    ((c7_error_classification 3 none "GET" "k").2.2.2.2.1 (by decide)).2⟩

/-- retryCfgNoJitter is a legal retry policy whose initial delay exceeds
its maximum delay, with jitter disabled. -/
def retryCfgNoJitter : RetryConfig :=
  { MaxRetries := 2, InitialDelay := 1000, MaxDelay := 500,
    BackoffFactor := 2, EnableJitter := false }

/-- C9 counterexample: at attempt 0 the backoff loop never runs, so the
initial delay is returned without any clamping and exceeds MaxDelay,
contradicting the claim that the returned delay never exceeds max_delay. -/
theorem c9_initial_delay_unclamped :
    calculateRetryDelay retryCfgNoJitter 0 = 1000
    ∧ retryCfgNoJitter.MaxDelay = 500
    ∧ ¬ calculateRetryDelay retryCfgNoJitter 0 ≤ retryCfgNoJitter.MaxDelay := by
  refine ⟨rfl, rfl, by decide⟩

/-- backoffLoop keeps any delay at or below MaxDelay once it starts there:
each step either clamps to MaxDelay or recurses with a value that the
clamp test has just bounded. -/
theorem backoffLoop_le (factor : ℚ) (maxDelay : Int) :
    ∀ (n : Nat) (d : Int), d ≤ maxDelay → backoffLoop factor maxDelay n d ≤ maxDelay := by
  intro n
  induction n with
  | zero => intro d h; simpa [backoffLoop] using h
  | succ n ih =>
    intro d h
    simp only [backoffLoop]
    split
    · exact le_refl maxDelay
    · exact ih _ (by omega)

/-- truncQ is bounded by any integer bound of its argument, provided the
bound is non-negative (truncation toward zero cannot go above zero for
negative arguments). -/
theorem truncQ_le (q : ℚ) (m : Int) (h : q ≤ (m : ℚ)) (hm : 0 ≤ m) :
    truncQ q ≤ m := by
  unfold truncQ
  split
  · exact (Int.floor_mono h).trans_eq (Int.floor_intCast m)
  · have hq : q ≤ (0 : ℚ) := le_of_not_le (by assumption)
    have : ⌈q⌉ ≤ (0 : Int) := Int.ceil_le.mpr (by exact_mod_cast hq)
    omega

/-- jitterFactor always lies between one half and nine tenths. -/
theorem jitterFactor_bounds (attempt : Nat) :
    1/2 ≤ jitterFactor attempt ∧ jitterFactor attempt ≤ 9/10 := by
  unfold jitterFactor
  have h4 : (attempt % 5) ≤ 4 := Nat.lt_succ_iff.mp (Nat.mod_lt _ (by norm_num))
  have h4q : ((attempt % 5 : Nat) : ℚ) ≤ 4 := by exact_mod_cast h4
  have h0q : (0 : ℚ) ≤ ((attempt % 5 : Nat) : ℚ) := Nat.cast_nonneg _
  constructor <;> nlinarith

/-- C9 as amended: the delay is the initial delay multiplied by the backoff
factor once per prior attempt with an in-loop clamp at max_delay, and the
deterministic jitter factor lies in the interval one half to nine tenths;
provided the initial delay is between 0 and max_delay the returned delay
never exceeds max_delay. Without that proviso the clamp fires only after a
multiplication, so at attempt 0 an oversized initial delay is returned
unclamped. -/
theorem c9_retry_delay_clamped :
    ∀ (config : RetryConfig) (attempt : Nat),
      (1/2 ≤ jitterFactor attempt ∧ jitterFactor attempt ≤ 9/10)
      ∧ (0 ≤ config.InitialDelay → config.InitialDelay ≤ config.MaxDelay →
          calculateRetryDelay config attempt ≤ config.MaxDelay) := by
  intro config attempt
  refine ⟨jitterFactor_bounds attempt, ?_⟩
  intro h0 hle
  have hloop : backoffLoop config.BackoffFactor config.MaxDelay attempt config.InitialDelay
      ≤ config.MaxDelay := backoffLoop_le _ _ _ _ hle
  have hm : (0 : Int) ≤ config.MaxDelay := le_trans h0 hle
  unfold calculateRetryDelay
  split
  · set d := backoffLoop config.BackoffFactor config.MaxDelay attempt config.InitialDelay with hd
    have hjf := jitterFactor_bounds attempt
    apply truncQ_le _ _ _ hm
    rcases le_or_lt 0 d with hdpos | hdneg
    · have hd1 : (d : ℚ) * jitterFactor attempt ≤ (d : ℚ) * 1 := by
        apply mul_le_mul_of_nonneg_left _ (by exact_mod_cast hdpos)
        linarith [hjf.2]
      have hd2 : (d : ℚ) ≤ (config.MaxDelay : ℚ) := by exact_mod_cast hloop
      linarith
    · have hdq : (d : ℚ) < 0 := by exact_mod_cast hdneg
      have hmq : (0 : ℚ) ≤ (config.MaxDelay : ℚ) := by exact_mod_cast hm
      nlinarith [hjf.1]
  · exact hloop

/-- Witness for c9_retry_delay_clamped at a concrete in-bounds policy. -/
theorem c9_retry_delay_clamped_w :
    (0 : Int) ≤ 100 ∧ (100 : Int) ≤ 2000
    ∧ calculateRetryDelay
        { MaxRetries := 3, InitialDelay := 100, MaxDelay := 2000,
          BackoffFactor := 2, EnableJitter := true } 2 ≤ 2000 :=
  ⟨by decide, by decide,
    (c9_retry_delay_clamped
      { MaxRetries := 3, InitialDelay := 100, MaxDelay := 2000,
        BackoffFactor := 2, EnableJitter := true } 2).2 (by decide) (by decide)⟩

/-- The head of the per-key value list of url.Values is exactly the first
pair with that key. -/
theorem head_groupedValues_eq_find (ps : List (String × String)) (k : String) :
    (groupedValues ps k).head? = ((ps.find? (fun p => p.1 == k)).map (fun p => p.2)) := by
  induction ps with
  | nil => rfl
  | cons p t ih =>
    by_cases h : p.1 == k
    · simp [groupedValues, List.filter_cons, List.find?, h]
    · simp only [groupedValues, List.filter_cons, List.find?, h, if_false,
        Bool.false_eq_true, ite_false]
      exact ih

/-- getParam and firstParam agree on every body and key. -/
theorem getParam_eq_firstParam (body k : String) :
    getParam body k = firstParam body k := by
  unfold getParam firstParam
  rw [head_groupedValues_eq_find]

/-- C10: the values map an admin handler builds from its form body or query
string keeps, for every parameter name, exactly the value of the first
occurrence of that name; consequently deltaQuota and queryQuota behave as
if the body contained only first occurrences. -/
theorem c10_first_occurrence_wins :
    (∀ (body k : String), adminParams body k = firstParam body k)
    ∧ (∀ (store : StoreModel) (cfg : QuotaCfg) (body : String),
        deltaQuotaOnBody store cfg body
          = deltaQuota store cfg (fun k => firstParam body k))
    ∧ (∀ (store : StoreModel) (cfg : QuotaCfg) (cache : Cache)
        (rawQuery : String) (adminMode : AdminMode),
        queryQuotaOnQuery store cfg cache rawQuery adminMode
          = queryQuota store cfg cache (fun k => firstParam rawQuery k) adminMode) := by
  have hp : ∀ (body : String), adminParams body = fun k => firstParam body k := by
    intro body
    funext k
    exact getParam_eq_firstParam body k
  refine ⟨fun body k => by rw [hp body], ?_, ?_⟩
  · intro store cfg body
    unfold deltaQuotaOnBody
    rw [hp body]
  · intro store cfg cache rawQuery adminMode
    unfold queryQuotaOnQuery
    rw [hp rawQuery]

/-- Cache states built only by setStarCache and deleteStarCache carry no
false entry. -/
theorem reachable_cache_all_true :
    ∀ c : Cache, ReachableCache c → ∀ p ∈ c, p.2 = true := by
  intro c h
  induction h with
  | nil => intro p hp; simp at hp
  | set c u b _ ih =>
    intro p hp
    unfold setStarCache eraseCache at hp
    by_cases hb : b
    · subst hb
      simp only [if_pos rfl] at hp
      rcases List.mem_cons.mp hp with hEq | hMem
      · rw [hEq]
      · exact ih p (List.mem_filter.mp hMem).1
    · simp only [hb, if_false] at hp
      exact ih p (List.mem_filter.mp hp).1
  | del c u _ ih =>
    intro p hp
    unfold deleteStarCache eraseCache at hp
    exact ih p (List.mem_filter.mp hp).1

/-- C5: the star cache never holds a false entry (all states reachable from
the empty cache through setStarCache and deleteStarCache contain only true
entries, and each single operation preserves that invariant), a cache
lookup reports a hit only when the stored entry is true, and the admin
gate-set operation deletes the cache entry before issuing the store write
(the cacheDel event precedes the setK event, and the returned cache is the
deletion of the target identity). -/
theorem c5_star_cache_invariant :
    (∀ c : Cache, ReachableCache c → ∀ p ∈ c, p.2 = true)
    ∧ (∀ (c : Cache) (u : String) (b : Bool),
        (∀ p ∈ c, p.2 = true) → ∀ p ∈ setStarCache c u b, p.2 = true)
    ∧ (∀ (c : Cache) (u : String),
        (∀ p ∈ c, p.2 = true) → ∀ p ∈ deleteStarCache c u, p.2 = true)
    ∧ (∀ (c : Cache) (u : String),
        (checkStarCache c u).1 = true → lookupCache c u = some true)
    ∧ (∀ (store : StoreModel) (cfg : QuotaCfg) (cache : Cache)
        (params : String → String),
        params "user_id" ≠ "" →
        (params "star_value" = "true" ∨ params "star_value" = "false") →
        (setStarStatus store cfg cache params).2.1
            = [Ev.cacheDel (params "user_id"),
                Ev.setK (cfg.RedisStarPfx ++ params "user_id") (params "star_value")]
          ∧ (setStarStatus store cfg cache params).2.2
            = deleteStarCache cache (params "user_id")) := by
  refine ⟨reachable_cache_all_true, ?_, ?_, ?_, ?_⟩
  · intro c u b hc p hp
    unfold setStarCache eraseCache at hp
    by_cases hb : b
    · subst hb
      simp only [if_pos rfl] at hp
      rcases List.mem_cons.mp hp with hEq | hMem
      · rw [hEq]
      · exact hc p (List.mem_filter.mp hMem).1
    · simp only [hb, if_false] at hp
      exact hc p (List.mem_filter.mp hp).1
  · intro c u hc p hp
    unfold deleteStarCache eraseCache at hp
    exact hc p (List.mem_filter.mp hp).1
  · intro c u h
    unfold checkStarCache at h
    rcases hl : lookupCache c u with _ | b
    · rw [hl] at h; simp at h
    · rcases b with _ | _
      · rw [hl] at h; simp at h
      · rfl
  · intro store cfg cache params hu hv
    have hvne : params "star_value" ≠ "" := by
      rcases hv with h | h <;> rw [h] <;> decide
    unfold setStarStatus
    rcases hv with h | h <;>
      simp [hu, hvne, h]

/-- Witness for c5_star_cache_invariant at concrete caches and a concrete
gate-set body. -/
theorem c5_star_cache_invariant_w :
    (("u1", true).2 = true)
    ∧ lookupCache [("u1", true)] "u1" = some true
    ∧ (setStarStatus storeA cfgA [("u9", true)]
        (adminParams "user_id=u9&star_value=false")).2.1
        = [Ev.cacheDel "u9", Ev.setK "chat_quota_star:u9" "false"]
    ∧ (setStarStatus storeA cfgA [("u9", true)]
        (adminParams "user_id=u9&star_value=false")).2.2
        = deleteStarCache [("u9", true)] "u9" :=
  ⟨c5_star_cache_invariant.1 [("u1", true)]
      (ReachableCache.set [] "u1" true ReachableCache.nil) ("u1", true) (by decide),
    c5_star_cache_invariant.2.2.2.1 [("u1", true)] "u1" (by decide),
    (c5_star_cache_invariant.2.2.2.2 storeA cfgA [("u9", true)]
      (adminParams "user_id=u9&star_value=false") (by decide) (Or.inr (by decide))).1,
    (c5_star_cache_invariant.2.2.2.2 storeA cfgA [("u9", true)]
      (adminParams "user_id=u9&star_value=false") (by decide) (Or.inr (by decide))).2⟩

/-- modelAppendStep appends exactly the surviving entries. -/
theorem modelAppendStep_eq (cfg : QuotaCfg) (acc : List ModelInfo)
    (kv : String × String) :
    modelAppendStep cfg acc kv
      = if keepModelEntry kv then acc ++ [modelEntryOf cfg kv] else acc := by
  unfold modelAppendStep keepModelEntry
  split_ifs with h1 h2 h3 <;> simp_all

/-- The model-catalogue fold equals a filter followed by a map: one record
per surviving mapping entry, appended in iteration order. -/
theorem buildFold_eq_filterMap (cfg : QuotaCfg) :
    ∀ (l : List (String × String)) (acc : List ModelInfo),
      l.foldl (modelAppendStep cfg) acc
      = acc ++ (l.filter keepModelEntry).map (modelEntryOf cfg) := by
  intro l
  induction l with
  | nil => intro acc; simp
  | cons kv t ih =>
    intro acc
    rw [List.foldl_cons, modelAppendStep_eq, List.filter_cons]
    by_cases hk : keepModelEntry kv
    · simp only [hk, if_pos, if_true]
      rw [ih]
      simp [List.append_assoc]
    · simp only [hk, if_neg, Bool.false_eq_true, if_false]
      rw [ih]

/-- C8: the catalogue contains exactly one record per model-mapping entry
whose key is not the wildcard, does not end in the wildcard, and is not
mapped to the empty string; each record has object model, created
1686935002 and the provider-type owner mapping; and the data field is a
present (never nil) list even when the mapping is empty. -/
theorem c8_models_response :
    ∀ (cfg : QuotaCfg),
      (BuildModelsResponse cfg).Object = "list"
      ∧ (BuildModelsResponse cfg).Data
          = some ((cfg.Provider.ModelMapping.filter keepModelEntry).map
              (modelEntryOf cfg))
      ∧ getOwnerByProvider "openai" = "openai"
      ∧ getOwnerByProvider "azure" = "openai-internal"
      ∧ getOwnerByProvider "qwen" = "alibaba"
      ∧ getOwnerByProvider "moonshot" = "moonshot"
      ∧ getOwnerByProvider "claude" = "anthropic"
      ∧ getOwnerByProvider "gemini" = "google"
      ∧ (∀ t : String,
          t ∉ ["openai", "azure", "qwen", "moonshot", "claude", "gemini"] →
          getOwnerByProvider t = t) := by
  intro cfg
  refine ⟨?_, ?_, rfl, rfl, rfl, rfl, rfl, rfl, ?_⟩
  · unfold BuildModelsResponse
    split <;> rfl
  · unfold BuildModelsResponse
    dsimp only
    split
    · rename_i hlen
      have : cfg.Provider.ModelMapping = [] := List.length_eq_zero.mp hlen
      rw [this]
      rfl
    · rw [buildFold_eq_filterMap cfg]
      simp
  · intro t ht
    simp only [List.mem_cons, List.mem_singleton, not_or] at ht
    obtain ⟨h1, h2, h3, h4, h5, h6, _⟩ := ht
    unfold getOwnerByProvider
    simp [h1, h2, h3, h4, h5, h6]

/-- cfgCatalogue is the documented catalogue example: a qwen provider with
one plain mapping entry, one wildcard-suffix entry, the wildcard entry and
one empty-mapped entry. -/
def cfgCatalogue : QuotaCfg :=
  { cfgA with Provider :=
    { Typ := "qwen"
      ModelMapping := [("gpt-4", "qwen-max"), ("gpt-4-*", "qwen-max"),
        ("*", "qwen-turbo"), ("dead", "")] } }

/-- Witness for c8_models_response at the documented example mapping and a
provider type outside the fixed table. -/
theorem c8_models_response_w :
    ("deepseek" : String) ∉ ["openai", "azure", "qwen", "moonshot", "claude", "gemini"]
    ∧ getOwnerByProvider "deepseek" = "deepseek"
    ∧ (BuildModelsResponse cfgCatalogue).Data
        = some [{ Id := "gpt-4", Object := "model", Created := 1686935002, OwnedBy := "alibaba" }] :=
  ⟨by decide,
    (c8_models_response
      { cfgA with Provider := { Typ := "deepseek", ModelMapping := [] } }).2.2.2.2.2.2.2.2
      "deepseek" (by decide),
    by
      rw [(c8_models_response cfgCatalogue).2.1]
      decide⟩

/-- atoi? fails on the empty string. -/
theorem atoi?_empty : atoi? "" = none := rfl

/-- C3: reading the total-quota key maps outcomes as claimed: a store error
gives a terminal 403 total_quota_error; a present value that does not
parse, or parses negative, gives a terminal 500 invalid_total_quota; an
absent value (null reply or empty string) is treated as total 0 and the
chain continues with the used-quota read. -/
theorem c3_total_quota_read :
    ∀ (store : StoreModel) (cfg : QuotaCfg) (usedKey userId modelName : String)
      (quotaWeight : Int),
      (∀ e : String,
        handleTotalQuotaResponseWithRetry store cfg usedKey (.err e) userId
            quotaWeight modelName
          = (.response 403 "quota-check.total_quota_error"
              ("Failed to retrieve total quota: Redis error: " ++ e), []))
      ∧ (∀ s : String, s ≠ "" → atoi? s = none →
        handleTotalQuotaResponseWithRetry store cfg usedKey (.bulk s) userId
            quotaWeight modelName
          = (.response 500 "quota-check.invalid_total_quota"
              "Invalid total quota format", []))
      ∧ (∀ (s : String) (n : Int), atoi? s = some n → n < 0 →
        handleTotalQuotaResponseWithRetry store cfg usedKey (.bulk s) userId
            quotaWeight modelName
          = (.response 500 "quota-check.invalid_total_quota"
              "Invalid total quota value", []))
      ∧ (∀ r : RespValue, r = .null ∨ r = .bulk "" →
        handleTotalQuotaResponseWithRetry store cfg usedKey r userId
            quotaWeight modelName
          = ((handleUsedQuotaResponseWithRetry store cfg (store.get usedKey)
                userId quotaWeight modelName 0).1,
              Ev.getK usedKey ::
                (handleUsedQuotaResponseWithRetry store cfg (store.get usedKey)
                  userId quotaWeight modelName 0).2)) := by
  intro store cfg usedKey userId modelName quotaWeight
  refine ⟨?_, ?_, ?_, ?_⟩
  · intro e
    rfl
  · intro s hs hn
    unfold handleTotalQuotaResponseWithRetry
    simp [RespValue.isError, RespValue.string, hs, hn]
  · intro s n hn hneg
    have hs : s ≠ "" := by
      intro he
      rw [he, atoi?_empty] at hn
      exact Option.noConfusion hn
    unfold handleTotalQuotaResponseWithRetry
    simp [RespValue.isError, RespValue.string, hs, hn, hneg,
      show ¬ (0 ≤ n) from not_le.mpr hneg]
  · rintro r (rfl | rfl) <;> rfl

/-- Witness for c3_total_quota_read at concrete replies. -/
theorem c3_total_quota_read_w :
    (handleTotalQuotaResponseWithRetry storeA cfgA "chat_quota_used:u1" (.err "boom")
        "u1" 2 "gpt-4"
      = (.response 403 "quota-check.total_quota_error"
          "Failed to retrieve total quota: Redis error: boom", []))
    ∧ (handleTotalQuotaResponseWithRetry storeA cfgA "chat_quota_used:u1" (.bulk "x9")
        "u1" 2 "gpt-4"
      = (.response 500 "quota-check.invalid_total_quota"
          "Invalid total quota format", []))
    ∧ (handleTotalQuotaResponseWithRetry storeA cfgA "chat_quota_used:u1" (.bulk "-7")
        "u1" 2 "gpt-4"
      = (.response 500 "quota-check.invalid_total_quota"
          "Invalid total quota value", []))
    ∧ (handleTotalQuotaResponseWithRetry storeA cfgA "chat_quota_used:u1" .null
        "u1" 2 "gpt-4"
      = ((handleUsedQuotaResponseWithRetry storeA cfgA
            (storeA.get "chat_quota_used:u1") "u1" 2 "gpt-4" 0).1,
          Ev.getK "chat_quota_used:u1" ::
            (handleUsedQuotaResponseWithRetry storeA cfgA
              (storeA.get "chat_quota_used:u1") "u1" 2 "gpt-4" 0).2)) :=
  ⟨(c3_total_quota_read storeA cfgA "chat_quota_used:u1" "u1" "gpt-4" 2).1 "boom",
    (c3_total_quota_read storeA cfgA "chat_quota_used:u1" "u1" "gpt-4" 2).2.1 "x9"
      (by decide) (by decide),
    (c3_total_quota_read storeA cfgA "chat_quota_used:u1" "u1" "gpt-4" 2).2.2.1 "-7"
      (-7) (by decide) (by decide),
    (c3_total_quota_read storeA cfgA "chat_quota_used:u1" "u1" "gpt-4" 2).2.2.2 .null
      (Or.inl rfl)⟩

/-- C4: whenever the remaining quota (total minus used) is strictly below
the model weight, the decision is a terminal 403 insufficient_quota whose
message carries Required and Available, and no store write (in particular
no INCRBY on the used counter) is issued by the decision. -/
theorem c4_insufficient_quota :
    ∀ (store : StoreModel) (cfg : QuotaCfg) (userId modelName : String)
      (quotaWeight totalQuota : Int),
      (∀ (s : String) (usedQuota : Int), atoi? s = some usedQuota →
        0 ≤ usedQuota → totalQuota - usedQuota < quotaWeight →
        handleUsedQuotaResponseWithRetry store cfg (.bulk s) userId quotaWeight
            modelName totalQuota
          = (.response 403 "quota-check.insufficient_quota"
              ("Insufficient quota. Required: " ++ toString quotaWeight ++
                ", Available: " ++ toString (totalQuota - usedQuota)), []))
      ∧ (totalQuota < quotaWeight →
        handleUsedQuotaResponseWithRetry store cfg .null userId quotaWeight
            modelName totalQuota
          = (.response 403 "quota-check.insufficient_quota"
              ("Insufficient quota. Required: " ++ toString quotaWeight ++
                ", Available: " ++ toString totalQuota), [])) := by
  intro store cfg userId modelName quotaWeight totalQuota
  constructor
  · intro s usedQuota hparse hnn hlt
    have hs : s ≠ "" := by
      intro he
      rw [he, atoi?_empty] at hparse
      exact Option.noConfusion hparse
    unfold handleUsedQuotaResponseWithRetry quotaDecision
    simp [RespValue.isError, RespValue.string, hs, hparse,
      show ¬ usedQuota < 0 from not_lt.mpr hnn,
      show ¬ totalQuota - usedQuota ≥ quotaWeight from not_le.mpr hlt]
  · intro hlt
    unfold handleUsedQuotaResponseWithRetry quotaDecision
    simp [RespValue.isError, RespValue.string, hlt,
      show ¬ totalQuota - 0 ≥ quotaWeight from by omega]

/-- Witness for c4_insufficient_quota at the documented scenario: total 4,
used 3, weight 2, so remaining 1 is insufficient. -/
theorem c4_insufficient_quota_w :
    handleUsedQuotaResponseWithRetry storeA cfgA (.bulk "3") "u2" 2 "gpt-4" 4
      = (.response 403 "quota-check.insufficient_quota"
          "Insufficient quota. Required: 2, Available: 1", []) := by
  have h := (c4_insufficient_quota storeA cfgA "u2" "gpt-4" 2 4).1 "3" 3
    (by decide) (by decide) (by decide)
  simpa using h

/-- C2 counterexample: with gating enabled, an empty cache and a store
whose star flag is the string false, a request for a model of weight 0 is
rejected with 403 star_required after a star-key read, not resumed: the
gate runs before the weight is even looked up, so weight 0 does not bypass
gating. -/
theorem c2_gate_not_bypassed :
    weightOf cfgStar "m0" = 0
    ∧ handleCompletionQuota storeFalseStar cfgStar [] "u1" "m0" none
        = (starRequiredResponse, [Ev.getK "chat_quota_star:u1"], [])
    ∧ starRequiredResponse ≠ Outcome.resume := by
  refine ⟨rfl, by decide, by decide⟩

/-- A star-cache hit forces the full hit pair: checkStarCache yields only
the pairs (true, true) and (false, false). -/
theorem checkStarCache_hit (c : Cache) (u : String)
    (h : (checkStarCache c u).1 = true) : checkStarCache c u = (true, true) := by
  unfold checkStarCache at h ⊢
  rcases hl : lookupCache c u with _ | b
  · rw [hl] at h
    simp at h
  · rcases b
    · rw [hl] at h
      simp at h
    · rfl

/-- A star-cache miss forces the full miss pair. -/
theorem checkStarCache_miss (c : Cache) (u : String)
    (h : (checkStarCache c u).1 = false) : checkStarCache c u = (false, false) := by
  unfold checkStarCache at h ⊢
  rcases hl : lookupCache c u with _ | b
  · rfl
  · rcases b
    · rfl
    · rw [hl] at h
      simp at h

/-- C2 as amended: a completion request whose model weight is 0 performs
zero store writes, and its outcome is resume except that the gating check
still applies first. Case by case: with gating disabled the outcome is
resume; with gating enabled it is resume on a cache hit, on a store error
while reading the star flag (fail-open), and on a store value equal to the
string true; it is the 403 star_required response exactly when gating is
enabled, the cache misses, the store read succeeds and its value is not
the string true. -/
theorem c2_weight_zero :
    ∀ (store : StoreModel) (cfg : QuotaCfg) (cache : Cache)
      (userId modelName : String) (deductHdr : Option String),
      weightOf cfg modelName = 0 →
      ((handleCompletionQuota store cfg cache userId modelName deductHdr).2.1.filter
          Ev.isStoreWrite = []
        ∧ (cfg.CheckGithubStar = false →
            (handleCompletionQuota store cfg cache userId modelName deductHdr).1
              = Outcome.resume)
        ∧ (cfg.CheckGithubStar = true →
            (checkStarCache cache userId).1 = true →
            (handleCompletionQuota store cfg cache userId modelName deductHdr).1
              = Outcome.resume)
        ∧ (cfg.CheckGithubStar = true →
            (checkStarCache cache userId).1 = false →
            (store.get (cfg.RedisStarPfx ++ userId)).isError = true →
            (handleCompletionQuota store cfg cache userId modelName deductHdr).1
              = Outcome.resume)
        ∧ (cfg.CheckGithubStar = true →
            (checkStarCache cache userId).1 = false →
            (store.get (cfg.RedisStarPfx ++ userId)).isError = false →
            (!(store.get (cfg.RedisStarPfx ++ userId)).isNull
              && (store.get (cfg.RedisStarPfx ++ userId)).string == "true") = true →
            (handleCompletionQuota store cfg cache userId modelName deductHdr).1
              = Outcome.resume)
        ∧ (cfg.CheckGithubStar = true →
            (checkStarCache cache userId).1 = false →
            (store.get (cfg.RedisStarPfx ++ userId)).isError = false →
            (!(store.get (cfg.RedisStarPfx ++ userId)).isNull
              && (store.get (cfg.RedisStarPfx ++ userId)).string == "true") = false →
            (handleCompletionQuota store cfg cache userId modelName deductHdr).1
              = starRequiredResponse)) := by
  intro store cfg cache userId modelName deductHdr hw
  have hp : processQuotaLogic store cfg userId modelName deductHdr
      = (Outcome.resume, []) := by
    unfold processQuotaLogic
    rw [hw]
    simp
  refine ⟨?_, ?_, ?_, ?_, ?_, ?_⟩
  · unfold handleCompletionQuota
    split
    · split
      · split
        · rw [hp]
          rfl
        · rfl
      · dsimp only
        split
        · rw [hp]
          rfl
        · split
          · rw [hp]
            rfl
          · rfl
    · rw [hp]
      rfl
  · intro hg
    simp [handleCompletionQuota, hg, hp]
  · intro hg hc
    simp [handleCompletionQuota, hg, checkStarCache_hit cache userId hc, hp]
  · intro hg hc herr
    simp [handleCompletionQuota, hg, checkStarCache_miss cache userId hc, herr, hp]
  · intro hg hc herr hstar
    simp [handleCompletionQuota, hg, checkStarCache_miss cache userId hc, herr,
      hstar, hp]
  · intro hg hc herr hstar
    simp [handleCompletionQuota, hg, checkStarCache_miss cache userId hc, herr,
      hstar, hp]

/-- Witness for c2_weight_zero: a weighted-table miss with gating disabled
resumes with zero store writes, and the same weight-0 request with gating
enabled, an empty cache and a store answering false is rejected with
star_required. -/
theorem c2_weight_zero_w :
    (handleCompletionQuota storeA cfgA [] "u1" "claude-3" none).2.1.filter
        Ev.isStoreWrite = []
      ∧ (handleCompletionQuota storeA cfgA [] "u1" "claude-3" none).1
          = Outcome.resume
      ∧ (handleCompletionQuota storeFalseStar cfgStar [] "u1" "m0" none).1
          = starRequiredResponse :=
  ⟨(c2_weight_zero storeA cfgA [] "u1" "claude-3" none (by decide)).1,
    (c2_weight_zero storeA cfgA [] "u1" "claude-3" none (by decide)).2.1 rfl,
    (c2_weight_zero storeFalseStar cfgStar [] "u1" "m0" none
      (by decide)).2.2.2.2.2 rfl (by decide) (by decide) (by decide)⟩

/-- A nonempty suffix ends in the same character as the list it is a
suffix of. -/
theorem getLast?_of_suffix {u v : List Char} (h : u <:+ v) {c : Char}
    (hc : u.getLast? = some c) : v.getLast? = some c := by
  obtain ⟨t, rfl⟩ := h
  rw [List.getLast?_append, hc]
  rfl

/-- Lists with distinct last characters are not suffixes of one another. -/
theorem not_suffix_of_getLast {u v : List Char} {c d : Char}
    (hu : u.getLast? = some c) (hv : v.getLast? = some d) (hne : c ≠ d) :
    ¬ u <:+ v := by
  intro h
  rw [getLast?_of_suffix h hu] at hv
  exact hne (Option.some.inj hv)

/-- The last character of an append is the last character of its right
part. -/
theorem lastChar_append₁ (X sfx : List Char) (c : Char)
    (h : sfx.getLast? = some c) : (X ++ sfx).getLast? = some c := by
  rw [List.getLast?_append, h]
  rfl

/-- The last character of a double append is the last character of its
rightmost part. -/
theorem lastChar_append₂ (q X sfx : List Char) (c : Char)
    (h : sfx.getLast? = some c) : (q ++ (X ++ sfx)).getLast? = some c := by
  rw [List.getLast?_append, lastChar_append₁ X sfx c h]
  rfl

/-- The full admin path can not be shifted by five onto itself: appending
the used segment on the right never equals prepending five characters,
because the fixed completion base is not periodic with period five. -/
theorem shift5_false (A t : List Char)
    (h : ("/v1/chat/completions".toList ++ A) ++ "/used".toList
        = t ++ ("/v1/chat/completions".toList ++ A)) : False := by
  have hbase : ("/v1/chat/completions".toList).length = 20 := rfl
  have hused : ("/used".toList).length = 5 := rfl
  have hlen : t.length = 5 := by
    have hl := congrArg List.length h
    simp only [List.length_append] at hl
    rw [hbase, hused] at hl
    omega
  have h' : "/v1/chat/completions".toList ++ (A ++ "/used".toList)
      = t ++ ("/v1/chat/completions".toList ++ A) := by
    rw [← List.append_assoc]
    exact h
  have h5 := congrArg (fun l => l[5]?) h'
  simp only at h5
  rw [List.getElem?_append,
    if_pos (show (5:Nat) < ("/v1/chat/completions".toList).length by decide)] at h5
  rw [List.getElem?_append_right (by omega : t.length ≤ 5), hlen] at h5
  rw [List.getElem?_append,
    if_pos (show (5-5:Nat) < ("/v1/chat/completions".toList).length by decide)] at h5
  exact absurd h5 (by decide)

/-- A shorter admin pattern never matches a path that ends in the same
pattern preceded by the used segment: the candidate suffix would force the
impossible shift of shift5_false. -/
theorem drop_suffix_false (q A tail₁ : List Char)
    (h : (("/v1/chat/completions".toList ++ A) ++ tail₁) <:+
        (q ++ (("/v1/chat/completions".toList ++ A) ++ ("/used".toList ++ tail₁)))) :
    False := by
  have h2 : (("/v1/chat/completions".toList ++ A) ++ ("/used".toList ++ tail₁)) <:+
      (q ++ (("/v1/chat/completions".toList ++ A) ++ ("/used".toList ++ tail₁))) :=
    List.suffix_append _ _
  have h3 : (("/v1/chat/completions".toList ++ A) ++ tail₁) <:+
      (("/v1/chat/completions".toList ++ A) ++ ("/used".toList ++ tail₁)) := by
    rcases List.suffix_or_suffix_of_suffix h h2 with h3 | h3
    · exact h3
    · have := h3.length_le
      simp only [List.length_append] at this
      have hused : ("/used".toList).length = 5 := rfl
      omega
  obtain ⟨t, ht⟩ := h3
  have ht2 : (("/v1/chat/completions".toList ++ A) ++ "/used".toList) ++ tail₁
      = (t ++ (("/v1/chat/completions".toList ++ A))) ++ tail₁ := by
    rw [List.append_assoc ("/v1/chat/completions".toList ++ A) "/used".toList tail₁]
    rw [List.append_assoc t _ tail₁]
    exact ht.symm
  exact shift5_false A t (List.append_cancel_right ht2)

/-- A pattern is a suffix of anything that ends in it. -/
theorem hasSuffixL_self_append (q y : List Char) : hasSuffixL (q ++ y) y = true :=
  decide_eq_true (List.suffix_append q y)

/-- A pattern whose last character differs from the path tail never
matches. -/
theorem hasSuffixL_last_false (q X sfx₁ sfx₂ : List Char) (c d : Char)
    (h1 : sfx₁.getLast? = some c) (h2 : sfx₂.getLast? = some d) (hne : c ≠ d) :
    hasSuffixL (q ++ (X ++ sfx₂)) (X ++ sfx₁) = false :=
  decide_eq_false
    (not_suffix_of_getLast (lastChar_append₁ X sfx₁ c h1)
      (lastChar_append₂ q X sfx₂ d h2) hne)

/-- A pattern never matches the path that ends in the used segment followed
by the same pattern tail. -/
theorem hasSuffixL_shift_false (q A tail₁ : List Char) :
    hasSuffixL
      (q ++ (("/v1/chat/completions".toList ++ A) ++ ("/used".toList ++ tail₁)))
      (("/v1/chat/completions".toList ++ A) ++ tail₁) = false :=
  decide_eq_false (fun h => drop_suffix_false q A tail₁ h)

/-- C6: the request classifier matches longer admin suffixes before shorter
ones: a path ending in base plus admin path plus the used-refresh segment
classifies as used-refresh (never used-query or total-refresh), a path
ending in the used-delta segment classifies as used-delta (never used-query
or total-delta), and a path ending in the star-set segment classifies as
star-set (never star-query). -/
theorem c6_longest_suffix_first :
    ∀ (p A : List Char),
      getOperationMode
          (p ++ (("/v1/chat/completions".toList ++ A) ++ "/used/refresh".toList)) A
        = (ChatMode.admin, AdminMode.usedRefresh)
      ∧ getOperationMode
          (p ++ (("/v1/chat/completions".toList ++ A) ++ "/used/delta".toList)) A
        = (ChatMode.admin, AdminMode.usedDelta)
      ∧ getOperationMode
          (p ++ (("/v1/chat/completions".toList ++ A) ++ "/star/set".toList)) A
        = (ChatMode.admin, AdminMode.starSet) := by
  intro p A
  refine ⟨?_, ?_, ?_⟩
  · have e : ("/used/refresh".toList : List Char)
        = "/used".toList ++ "/refresh".toList := rfl
    unfold getOperationMode
    dsimp only
    rw [e]
    rw [hasSuffixL_shift_false p A "/refresh".toList]
    rw [hasSuffixL_last_false p _ "/delta".toList
      ("/used".toList ++ "/refresh".toList) 'a' 'h' rfl rfl (by decide)]
    rw [hasSuffixL_self_append]
    simp
  · have e : ("/used/delta".toList : List Char)
        = "/used".toList ++ "/delta".toList := rfl
    unfold getOperationMode
    dsimp only
    rw [e]
    rw [hasSuffixL_last_false p _ "/refresh".toList
      ("/used".toList ++ "/delta".toList) 'h' 'a' rfl rfl (by decide)]
    rw [hasSuffixL_shift_false p A "/delta".toList]
    rw [hasSuffixL_last_false p _ "/used/refresh".toList
      ("/used".toList ++ "/delta".toList) 'h' 'a' rfl rfl (by decide)]
    rw [hasSuffixL_self_append]
    simp
  · unfold getOperationMode
    dsimp only
    rw [hasSuffixL_last_false p _ "/refresh".toList "/star/set".toList 'h' 't'
      rfl rfl (by decide)]
    rw [hasSuffixL_last_false p _ "/delta".toList "/star/set".toList 'a' 't'
      rfl rfl (by decide)]
    rw [hasSuffixL_last_false p _ "/used/refresh".toList "/star/set".toList 'h' 't'
      rfl rfl (by decide)]
    rw [hasSuffixL_last_false p _ "/used/delta".toList "/star/set".toList 'a' 't'
      rfl rfl (by decide)]
    rw [hasSuffixL_last_false p _ "/used".toList "/star/set".toList 'd' 't'
      rfl rfl (by decide)]
    rw [hasSuffixL_self_append]
    simp

end AiQuota
